import Mathlib

/-!
Shallow embedding of the FinAI Mitra document-processing pipeline:
the LLM gateway (`call_gemini_api` and its retry decorator), the prompt
builders, the financial classifier (`is_document_financial`) from
`src/utils/llm_processor.py`, the configuration constant from
`src/config.py`, and the orchestrator flow (`main`, Process Document /
Q&A handlers) from `src/main_app.py`.
-/

set_option maxRecDepth 100000

namespace FinaiMitra

/-! ### String helpers modelling Python string primitives -/

/-- Substring test: `strContains s pat` models Python's `pat in s`. -/
def strContains (s pat : String) : Bool :=
  decide (pat.toList <:+: s.toList)

/-- Python's `str.lower()`: every character lower-cased. -/
def pyLower (s : String) : String :=
  String.mk (s.toList.map Char.toLower)

/-- Python's `str.upper()`: every character upper-cased. -/
def pyUpper (s : String) : String :=
  String.mk (s.toList.map Char.toUpper)

/-- Python's `str.strip()`: leading and trailing whitespace removed. -/
def pyStrip (s : String) : String :=
  String.mk (((s.toList.dropWhile Char.isWhitespace).reverse.dropWhile
    Char.isWhitespace).reverse)

/-- Python's `str.capitalize()`: first character upper-cased, the rest
lower-cased. -/
def pyCapitalize (s : String) : String :=
  match s.toList with
  | [] => ""
  | c :: cs => String.mk (c.toUpper :: cs.map Char.toLower)

/-- Replacement of every non-overlapping occurrence of `pat`, left to
right, over a character list; `fuel` bounds the recursion and is started
at the list length (each step consumes at least one character, so the
fuel never runs out on the started value). -/
def replaceAllAux (pat rep : List Char) : Nat → List Char → List Char
  | 0, l => l
  | _ + 1, [] => []
  | fuel + 1, c :: t =>
    if pat ≠ [] ∧ pat.isPrefixOf (c :: t) then
      rep ++ replaceAllAux pat rep fuel ((c :: t).drop pat.length)
    else
      c :: replaceAllAux pat rep fuel t

/-- Python's `str.replace(old, new)`: all occurrences replaced. -/
def pyReplace (s old new : String) : String :=
  String.mk (replaceAllAux old.toList new.toList s.toList.length s.toList)

/-! ### Configuration (`src/config.py`) -/

/-- `MAX_SUMMARY_WORDS = 250` — max words for AI summarization. -/
def MAX_SUMMARY_WORDS : Nat := 250

/-! ### Prompt builders (`src/utils/llm_processor.py`) -/

/-- The `common_elements` fragment shared by every summarize template. -/
def common_elements : String :=
  "Highlight key terms and conditions, like interest rates, repayment periods, and penalties. Keep the summary concise (maximum " ++ toString MAX_SUMMARY_WORDS ++ " words)."

/-- `get_summarize_prompt(document_text, country, target_language_iso_code)`. -/
def get_summarize_prompt (document_text country target_language_iso_code : String) : String :=
  if country = "India" then
    if target_language_iso_code = "hi" then
      "Summarize the following Indian financial document in simple, colloquial , as if explaining it to a common person in a village. " ++
        (common_elements ++ ("\n            Document:\n            " ++ document_text))
    else
      "Summarize the following Indian financial document in simple, plain English, suitable for someone with limited financial literacy. " ++
        (common_elements ++ ("\n            Document:\n            " ++ document_text))
  else if country = "Germany" then
    if target_language_iso_code = "de" then
      "Fasse das folgende deutsche Finanzdokument prägnant und in klarem, leicht verständlichem Deutsch zusammen. Betone die wichtigsten Bedingungen und Konditionen (z.B. Vertragsdauer, Kündigungsfristen, Kosten). Vermeide übermäßig komplizierte juristische Fachsprache, aber bleibe präzise. " ++
        (pyReplace common_elements "words" "Wörter" ++ ("\n            Dokument:\n            " ++ document_text))
    else
      "Summarize the following German financial document into clear, plain English. Break down complex German terms and sentences. Ensure accuracy while making it accessible to a non-native speaker without a legal background. " ++
        (common_elements ++ ("\n            Document:\n            " ++ document_text))
  else
    "Summarize the following financial document in simple " ++ pyCapitalize target_language_iso_code ++ " language. " ++
      (common_elements ++ (" Document: " ++ document_text))

/-- `get_simplify_prompt(document_text, country, target_language_iso_code)`. -/
def get_simplify_prompt (document_text country target_language_iso_code : String) : String :=
  if country = "India" then
    if target_language_iso_code = "hi" then
      "Simplify and rewrite the following Indian financial document text into very easy-to-understand, colloquial . Replace all jargon with simple words and rephrase complex sentences. Focus on clarity for someone with basic literacy.\n            Document:\n            " ++ document_text
    else
      "Simplify and rewrite the following Indian financial document text into very easy-to-understand, plain English. Replace all jargon with simple words and rephrase complex sentences. Focus on clarity for someone with basic literacy.\n            Document:\n            " ++ document_text
  else if country = "Germany" then
    if target_language_iso_code = "de" then
      "Vereinfache und schreibe den folgenden Text aus einem deutschen Finanzdokument in klares, präzises und leicht verständliches Deutsch um. Zerlege lange Sätze und komplizierte Fachbegriffe, ohne die Genauigkeit zu verlieren.\n            Dokument:\n            " ++ document_text
    else
      "Simplify and rewrite the following German financial document text into clear, plain English. Break down complex German sentences and compound words. Ensure that the meaning is accurately conveyed, making it accessible to a non-native speaker without a legal background.\n            Document:\n            " ++ document_text
  else
    "Simplify and rewrite the following financial document text into very easy-to-understand, plain " ++ pyCapitalize target_language_iso_code ++ " language. Document: " ++ document_text

/-- `get_qa_prompt(summary, question, target_language_iso_code)`. -/
def get_qa_prompt (summary question target_language_iso_code : String) : String :=
  "\n    You are an AI assistant answering questions about a financial document.\n    Please answer the following question ONLY based on the provided summary of the document.\n    If the answer is not present in the summary, state that you cannot find the answer there clearly in " ++
    pyCapitalize target_language_iso_code ++
    ".\n\n    **Summary of the Document:**\n    " ++ summary ++
    "\n\n    **Question:**\n    " ++ question ++
    "\n\n    **Answer in " ++ pyCapitalize target_language_iso_code ++ ":**\n    "

/-- `get_financial_classification_prompt(document_text)`. -/
def get_financial_classification_prompt (document_text : String) : String :=
  "\n    Analyze the following document text.\n    Determine if the primary content of this document is related to finance (e.g., banking, loans, investments, insurance, taxes, financial policies, legal agreements with financial implications, pay slips, balance sheets, invoices, financial news, etc.).\n    Respond with 'YES' if it is clearly a financial document, and 'NO' if it is not.\n    Provide ONLY 'YES' or 'NO' as your answer, with no additional text or explanation.\n\n    Document Text:\n    " ++
    (document_text ++ "\n    ")

/-! ### LLM gateway (`call_gemini_api` and its `@retry` decorator) -/

/-- Exception classes that can escape one `call_gemini_api` attempt.  The
first four are the members of `RETRY_EXCEPTIONS`; the last two stand for
any other `GoogleAPICallError` and any other Python exception. -/
inductive GException where
  | resourceExhausted
  | internalServerError
  | serviceUnavailable
  | deadlineExceeded
  | otherGoogleAPICallError
  | otherException
deriving DecidableEq, Repr

/-- Membership in `RETRY_EXCEPTIONS = (ResourceExhausted,
InternalServerError, ServiceUnavailable, DeadlineExceeded)`. -/
def isRetryException : GException → Bool
  | .resourceExhausted => true
  | .internalServerError => true
  | .serviceUnavailable => true
  | .deadlineExceeded => true
  | .otherGoogleAPICallError => false
  | .otherException => false

/-- The prompt actually sent by `call_gemini_api`: a target-language
directive is appended unless the prompt already contains
`"Please provide the output in"`, `"YES"`, or `"NO"`. -/
def addLanguageDirective (prompt target_language_iso_code : String) : String :=
  if strContains prompt "Please provide the output in" = false ∧
      strContains prompt "YES" = false ∧ strContains prompt "NO" = false then
    prompt ++ ("\n\n**Please provide the output in " ++
      (pyCapitalize target_language_iso_code ++ ".**"))
  else
    prompt

/-- Observable outcome of the decorated gateway call: final result, total
number of attempts made, and the delays slept between attempts. -/
structure RetryOutcome where
  result : Except GException String
  attemptsMade : Nat
  waits : List Nat
deriving Repr

/-- The `tenacity` retry loop: `f n` is the outcome of the `n`-th attempt
(1-based); `remaining` is how many further attempts the stop condition
still allows.  A failed attempt is retried after `waitSeconds` only when
the exception satisfies `isRetryException` and attempts remain; with
`reraise=True` the last exception is re-raised unchanged. -/
def tenacityLoop (f : Nat → Except GException String) (waitSeconds : Nat) :
    Nat → Nat → RetryOutcome
  | remaining, attempt =>
    match f attempt with
    | .ok s => ⟨.ok s, 1, []⟩
    | .error e =>
      match remaining with
      | 0 => ⟨.error e, 1, []⟩
      | r + 1 =>
        if isRetryException e then
          let rest := tenacityLoop f waitSeconds r (attempt + 1)
          ⟨rest.result, rest.attemptsMade + 1, waitSeconds :: rest.waits⟩
        else
          ⟨.error e, 1, []⟩

/-- The decorated `call_gemini_api`: `stop_after_attempt(3)`,
`wait_fixed(2)`, `retry_if_exception_type(RETRY_EXCEPTIONS)`,
`reraise=True`; the first attempt is attempt 1 and two further attempts
are allowed. -/
def call_gemini_api_retry (f : Nat → Except GException String) : RetryOutcome :=
  tenacityLoop f 2 2 1

/-! ### Financial classifier (`is_document_financial`) -/

/-- `is_document_financial(document_text, current_language_iso_code)`;
`gw` is the gateway (`call_gemini_api`) as seen by the classifier, and
the second component counts the external gateway calls made. -/
def is_document_financial (document_text : String)
    (gw : String → Except GException String) : Bool × Nat :=
  if pyStrip document_text = "" then
    (false, 0)
  else
    let text_snippet := document_text.take 5000
    let classification_prompt := get_financial_classification_prompt text_snippet
    match gw classification_prompt with
    | .error _ => (false, 1)
    | .ok response =>
      let response_clean := pyUpper (pyStrip response)
      if strContains response_clean "YES" then (true, 1)
      else if strContains response_clean "NO" then (false, 1)
      else (false, 1)

/-! ### Pipeline orchestrator (`src/main_app.py`, `main`) -/

/-- The four session-state fields the Process Document handler reads and
writes: `st.session_state.qa_answer`, `.processed_output`,
`.current_summary`, `.raw_extracted_text`. -/
structure SessionState where
  qa_answer : String
  processed_output : String
  current_summary : String
  raw_extracted_text : String
deriving DecidableEq, Repr

/-- Fresh session: every field initialised to the empty string. -/
def initialSession : SessionState := ⟨"", "", "", ""⟩

/-- Clearing step at the top of the Process Document handler
(`main_app.py` lines 373–376). -/
def clearOutputs (s : SessionState) : SessionState :=
  { s with qa_answer := "", processed_output := "", current_summary := "",
           raw_extracted_text := "" }

/-- Observable actions of one handler execution. -/
inductive Event where
  | clearPrev
  | extractCall
  | classifyCall
  | genCall
  | qaCall
deriving DecidableEq, Repr

/-- Which branch of the Process Document handler terminated the run. -/
inductive RunStatus where
  | noInput
  | noText
  | rejected
  | invalidResponse
  | ready
  | errored
deriving DecidableEq, Repr

/-- The user-supplied input sources: `uploaded_file` truthiness and the
pasted text (empty string is falsy in Python). -/
structure RunInput where
  uploadedFile : Bool
  pastedText : String
deriving DecidableEq, Repr

/-- External-world behaviour during one run: what
`get_text_from_input_source` yields (or the exception it raises), what
`is_document_financial` returns, and what `call_gemini_api` yields for a
given prompt (or the exception escaping it after retries). -/
structure RunOracle where
  extracted : Except String String
  financial : Bool
  gen : String → Except String String

/-- The fixed output stored when the classifier rejects the document
(`main_app.py` lines 403–408). -/
def NON_FINANCIAL_MESSAGE : String :=
  "**Document not recognized as financial.** FinAI Mitra is specifically designed to understand and process financial documents (e.g., loan agreements, insurance policies, tax documents). Please upload a relevant financial document."

/-- The substitute output stored when response validation fails
(`main_app.py` line 424). -/
def INVALID_RESPONSE_MESSAGE : String :=
  "AI generated an invalid response. Please retry with a clearer document."

/-- The Q&A answer stored when no summary is available
(`main_app.py` line 456). -/
def NO_SUMMARY_MESSAGE : String :=
  "Please process a document first to generate a summary/simplification for Q&A."

/-- The Process Document handler (`main_app.py` lines 369–437): clears
the previous outputs, checks the input sources, extracts, classifies,
gates, generates, and validates.  Returns the new session state, the
trace of observable events, and the terminating branch. -/
def runProcess (s : SessionState) (inp : RunInput) (action country lang : String)
    (ω : RunOracle) : SessionState × List Event × RunStatus :=
  let s0 := clearOutputs s
  if action ≠ "Financial Planning" ∧ (inp.uploadedFile = false ∧ inp.pastedText = "") then
    (s0, [Event.clearPrev], RunStatus.noInput)
  else
    match ω.extracted with
    | .error _ => (s0, [Event.clearPrev, Event.extractCall], RunStatus.errored)
    | .ok document_text =>
      if document_text = "" then
        (s0, [Event.clearPrev, Event.extractCall], RunStatus.noText)
      else
        let s1 := { s0 with raw_extracted_text := document_text }
        if ω.financial = false then
          ({ s1 with processed_output := NON_FINANCIAL_MESSAGE },
           [Event.clearPrev, Event.extractCall, Event.classifyCall], RunStatus.rejected)
        else
          let main_prompt :=
            (if action = "Summarize" then get_summarize_prompt else get_simplify_prompt)
              document_text country lang
          match ω.gen main_prompt with
          | .error _ =>
            (s1, [Event.clearPrev, Event.extractCall, Event.classifyCall, Event.genCall],
             RunStatus.errored)
          | .ok processed_output =>
            if processed_output = "" ∨ strContains (pyLower processed_output) "error" = true then
              ({ s1 with processed_output := INVALID_RESPONSE_MESSAGE },
               [Event.clearPrev, Event.extractCall, Event.classifyCall, Event.genCall],
               RunStatus.invalidResponse)
            else
              ({ s1 with processed_output := processed_output,
                         current_summary := processed_output },
               [Event.clearPrev, Event.extractCall, Event.classifyCall, Event.genCall],
               RunStatus.ready)

/-- The Q&A handler (`main_app.py` lines 452–467): a non-empty question
is answered from the stored `current_summary`, or rejected with the
no-summary message when none is stored. -/
def askQuestion (s : SessionState) (question lang : String)
    (gen : String → Except String String) : SessionState × List Event :=
  if question = "" then
    (s, [])
  else if s.current_summary = "" then
    ({ s with qa_answer := NO_SUMMARY_MESSAGE }, [])
  else
    match gen (get_qa_prompt s.current_summary question lang) with
    | .ok answer => ({ s with qa_answer := answer }, [Event.qaCall])
    | .error e =>
      ({ s with qa_answer :=
          "Could not get an answer due to an AI error: " ++ e ++ ". Please try again." },
       [Event.qaCall])

/-- One user interaction in a session. -/
inductive SessionOp where
  | runOp (inp : RunInput) (action country lang : String) (ω : RunOracle)
  | askOp (question lang : String) (gen : String → Except String String)

/-- State change of one interaction. -/
def stepOp (s : SessionState) : SessionOp → SessionState
  | .runOp inp a c l ω => (runProcess s inp a c l ω).1
  | .askOp q l g => (askQuestion s q l g).1

/-- State after a whole interaction history. -/
def runOps (s : SessionState) (ops : List SessionOp) : SessionState :=
  ops.foldl stepOp s

/-- Terminating branch of an interaction (a run's branch does not depend
on the incoming session state, so it is read off against
`initialSession`). -/
def opStatus : SessionOp → Option RunStatus
  | .runOp inp a c l ω => some (runProcess initialSession inp a c l ω).2.2
  | .askOp _ _ _ => none

/-! ### Substring lemmas -/

theorem strContains_iff {s pat : String} :
    strContains s pat = true ↔ pat.toList <:+: s.toList :=
  ⟨fun h => of_decide_eq_true h, fun h => decide_eq_true h⟩

theorem toList_append (s t : String) : (s ++ t).toList = s.toList ++ t.toList :=
  String.data_append s t

theorem strContains_append_right {t pat : String} (s : String)
    (h : strContains t pat = true) : strContains (s ++ t) pat = true := by
  rw [strContains_iff] at h ⊢
  rw [toList_append]
  exact h.trans (List.suffix_append s.toList t.toList).isInfix

theorem strContains_append_left {s pat : String} (t : String)
    (h : strContains s pat = true) : strContains (s ++ t) pat = true := by
  rw [strContains_iff] at h ⊢
  rw [toList_append]
  exact h.trans (List.prefix_append s.toList t.toList).isInfix

theorem strContains_self (s : String) : strContains s s = true :=
  decide_eq_true List.infix_rfl

/-! ### Claim theorems -/

/-- C1: the decorated gateway call makes at most 3 attempts total with a
fixed 2-second inter-attempt delay, retries only the transient exception
classes (resource exhausted, internal server error, service unavailable,
deadline exceeded), re-raises the last exception unchanged when every
attempt fails transiently, and raises a non-transient exception
immediately with zero additional attempts. -/
theorem call_gemini_api_retry_policy (f : Nat → Except GException String) :
    isRetryException .resourceExhausted = true
    ∧ isRetryException .internalServerError = true
    ∧ isRetryException .serviceUnavailable = true
    ∧ isRetryException .deadlineExceeded = true
    ∧ isRetryException .otherGoogleAPICallError = false
    ∧ isRetryException .otherException = false
    ∧ (call_gemini_api_retry f).attemptsMade ≤ 3
    ∧ (∀ w ∈ (call_gemini_api_retry f).waits, w = 2)
    ∧ (call_gemini_api_retry f).waits.length = (call_gemini_api_retry f).attemptsMade - 1
    ∧ (∀ e1 e2 e3, f 1 = .error e1 → f 2 = .error e2 → f 3 = .error e3 →
        isRetryException e1 = true → isRetryException e2 = true → isRetryException e3 = true →
        call_gemini_api_retry f = ⟨.error e3, 3, [2, 2]⟩)
    ∧ (∀ e, f 1 = .error e → isRetryException e = false →
        call_gemini_api_retry f = ⟨.error e, 1, []⟩)
    ∧ (∀ e, f 1 = .error e → 1 < (call_gemini_api_retry f).attemptsMade →
        isRetryException e = true) := by
  refine ⟨rfl, rfl, rfl, rfl, rfl, rfl, ?_⟩
  rcases h1 : f 1 with e1 | s1
  · rcases he1 : isRetryException e1 with _ | _
    · simp [call_gemini_api_retry, tenacityLoop, h1, he1]
      intro a b c hab hb hc hra hrb
      subst hab
      simp [he1] at hra
    · rcases h2 : f 2 with e2 | s2
      · rcases he2 : isRetryException e2 with _ | _
        · simp [call_gemini_api_retry, tenacityLoop, h1, he1, h2, he2]
          intro a b c hab hbc hc hra hrb
          subst hbc
          simp [he2] at hrb
        · rcases h3 : f 3 with e3 | s3
          · simp [call_gemini_api_retry, tenacityLoop, h1, he1, h2, he2, h3]
          · simp [call_gemini_api_retry, tenacityLoop, h1, he1, h2, he2, h3]
      · simp [call_gemini_api_retry, tenacityLoop, h1, he1, h2]
  · simp [call_gemini_api_retry, tenacityLoop, h1]

/-- C1 witness: a transient failure on every attempt exhausts exactly 3
attempts with the two 2-second waits and re-raises the last exception; a
non-transient failure is raised after a single attempt. -/
theorem call_gemini_api_retry_policy_witness :
    call_gemini_api_retry (fun _ => .error .resourceExhausted) =
      ⟨.error .resourceExhausted, 3, [2, 2]⟩
    ∧ call_gemini_api_retry (fun _ => .error .otherException) =
      ⟨.error .otherException, 1, []⟩ :=
  ⟨(call_gemini_api_retry_policy
        (fun _ => .error .resourceExhausted)).2.2.2.2.2.2.2.2.2.1
      .resourceExhausted .resourceExhausted .resourceExhausted rfl rfl rfl rfl rfl rfl,
   (call_gemini_api_retry_policy
        (fun _ => .error .otherException)).2.2.2.2.2.2.2.2.2.2.1
      .otherException rfl rfl⟩

/-- C2: every new run request — for every previous session state, every
input, and every oracle behaviour, including failing ones — first clears
the stored Q&A answer, processed output, current summary, and raw
extracted text: the first observable event is the clearing step, the
run's outcome is independent of the previously stored values, and the
cleared Q&A answer is never re-established by the run. -/
theorem run_clears_upfront (s s' : SessionState) (inp : RunInput) (a c l : String)
    (ω : RunOracle) :
    (runProcess s inp a c l ω).2.1.head? = some Event.clearPrev
    ∧ (runProcess s inp a c l ω).1.qa_answer = ""
    ∧ runProcess s inp a c l ω = runProcess s' inp a c l ω := by
  refine ⟨?_, ?_, rfl⟩ <;>
  · simp only [runProcess, clearOutputs]
    repeat' split
    all_goals rfl

/-- C3 counterexample: a run with neither file nor pasted text does
change session state — the previously stored outputs are cleared — so
the claim's "no session state is changed" fails on a state with a
non-empty previous output. -/
theorem run_no_input_state_change_cex :
    (runProcess ⟨"old answer", "old output", "old summary", "old raw"⟩
        ⟨false, ""⟩ "Summarize" "India" "en"
        ⟨.ok "text", true, fun _ => .ok "resp"⟩).2.2 = RunStatus.noInput
    ∧ (runProcess ⟨"old answer", "old output", "old summary", "old raw"⟩
        ⟨false, ""⟩ "Summarize" "India" "en"
        ⟨.ok "text", true, fun _ => .ok "resp"⟩).1 ≠
      ⟨"old answer", "old output", "old summary", "old raw"⟩ := by
  decide

/-- C3 (amended): a run with neither file nor pasted text fails with the
no-input outcome, makes no extraction, classification, or generation
call, and leaves the session state unchanged except for the upfront
clearing of the four output fields. -/
theorem run_no_input_clears_only (s : SessionState) (inp : RunInput) (a c l : String)
    (ω : RunOracle) (ha : a ≠ "Financial Planning") (hf : inp.uploadedFile = false)
    (hp : inp.pastedText = "") :
    runProcess s inp a c l ω = (clearOutputs s, [Event.clearPrev], RunStatus.noInput) := by
  simp [runProcess, ha, hf, hp]

/-- C3 witness: concrete no-input run. -/
theorem run_no_input_clears_only_witness :
    runProcess ⟨"old answer", "old output", "old summary", "old raw"⟩
        ⟨false, ""⟩ "Summarize" "India" "en"
        ⟨.ok "text", true, fun _ => .ok "resp"⟩ =
      (clearOutputs ⟨"old answer", "old output", "old summary", "old raw"⟩,
       [Event.clearPrev], RunStatus.noInput) :=
  run_no_input_clears_only _ _ _ _ _ _ (by decide) rfl rfl

/-- C4: when the classifier returns false the orchestrator stores the
fixed non-financial message as the processed output, stops with the
rejected outcome, and never makes the LLM generation call. -/
theorem run_rejects_non_financial (s : SessionState) (inp : RunInput) (a c l t : String)
    (ω : RunOracle) (hin : inp.uploadedFile = true ∨ inp.pastedText ≠ "")
    (hE : ω.extracted = .ok t) (ht : t ≠ "") (hcl : ω.financial = false) :
    runProcess s inp a c l ω =
      ({ clearOutputs s with raw_extracted_text := t,
                             processed_output := NON_FINANCIAL_MESSAGE },
       [Event.clearPrev, Event.extractCall, Event.classifyCall], RunStatus.rejected)
    ∧ Event.genCall ∉ (runProcess s inp a c l ω).2.1 := by
  have hcond : ¬(a ≠ "Financial Planning" ∧ (inp.uploadedFile = false ∧ inp.pastedText = "")) := by
    rcases hin with h | h <;> simp [h]
  have hmain : runProcess s inp a c l ω =
      ({ clearOutputs s with raw_extracted_text := t,
                             processed_output := NON_FINANCIAL_MESSAGE },
       [Event.clearPrev, Event.extractCall, Event.classifyCall], RunStatus.rejected) := by
    simp [runProcess, hcond, hE, ht, hcl, clearOutputs]
  refine ⟨hmain, ?_⟩
  rw [hmain]
  simp

/-- C4 witness: a concrete non-financial document is rejected with the
fixed message and no generation call. -/
theorem run_rejects_non_financial_witness :
    runProcess initialSession
        ⟨false, "The quick brown fox jumps over the lazy dog"⟩ "Summarize" "India" "en"
        ⟨.ok "The quick brown fox jumps over the lazy dog", false, fun _ => .ok "out"⟩ =
      ({ clearOutputs initialSession with
           raw_extracted_text := "The quick brown fox jumps over the lazy dog",
           processed_output := NON_FINANCIAL_MESSAGE },
       [Event.clearPrev, Event.extractCall, Event.classifyCall], RunStatus.rejected)
    ∧ Event.genCall ∉
      (runProcess initialSession
          ⟨false, "The quick brown fox jumps over the lazy dog"⟩ "Summarize" "India" "en"
          ⟨.ok "The quick brown fox jumps over the lazy dog", false, fun _ => .ok "out"⟩).2.1 :=
  run_rejects_non_financial _ _ _ _ _ _ _
    (Or.inr (by decide)) rfl (by decide) rfl

theorem runProcess_summary_or_ready (s : SessionState) (inp : RunInput) (a c l : String)
    (ω : RunOracle) :
    (runProcess s inp a c l ω).1.current_summary = ""
    ∨ (runProcess s inp a c l ω).2.2 = RunStatus.ready := by
  simp only [runProcess, clearOutputs]
  repeat' split
  all_goals first
    | exact Or.inl rfl
    | exact Or.inr rfl

theorem askQuestion_preserves_summary (s : SessionState) (q l : String)
    (g : String → Except String String) :
    (askQuestion s q l g).1.current_summary = s.current_summary := by
  simp only [askQuestion]
  repeat' split
  all_goals rfl

theorem runOps_no_ready_summary (ops : List SessionOp) :
    ∀ s : SessionState, s.current_summary = "" →
      (∀ op ∈ ops, opStatus op ≠ some RunStatus.ready) →
      (runOps s ops).current_summary = "" := by
  induction ops with
  | nil => intro s h _; exact h
  | cons op rest ih =>
    intro s h hops
    have hstep : (stepOp s op).current_summary = "" := by
      cases op with
      | runOp inp a c l ω =>
        rcases runProcess_summary_or_ready s inp a c l ω with h1 | h1
        · exact h1
        · have hst : opStatus (SessionOp.runOp inp a c l ω) =
              some (runProcess s inp a c l ω).2.2 := rfl
          exact absurd (hst.trans (by rw [h1])) (hops _ (List.mem_cons_self _ _))
      | askOp q l g =>
        rw [stepOp, askQuestion_preserves_summary]
        exact h
    have hrest : runOps s (op :: rest) = runOps (stepOp s op) rest := rfl
    rw [hrest]
    exact ih (stepOp s op) hstep (fun op' h' => hops op' (List.mem_cons_of_mem _ h'))

/-- C5: in every session history containing no run whose generation
passed validation (no `Ready` run) — rejections and invalid or failed
generations included — the Q&A grounding summary stays empty, and asking
a question fails by storing the fixed no-summary message while making no
LLM call. -/
theorem ask_requires_ready (s0 : SessionState) (ops : List SessionOp)
    (h0 : s0.current_summary = "")
    (hops : ∀ op ∈ ops, opStatus op ≠ some RunStatus.ready)
    (q l : String) (g : String → Except String String) (hq : q ≠ "") :
    (runOps s0 ops).current_summary = ""
    ∧ askQuestion (runOps s0 ops) q l g =
      ({ runOps s0 ops with qa_answer := NO_SUMMARY_MESSAGE }, []) := by
  have hs := runOps_no_ready_summary ops s0 h0 hops
  refine ⟨hs, ?_⟩
  simp [askQuestion, hq, hs]

/-- Sample history for the C5 witness: one run rejected as non-financial
and one run whose generated response fails validation. -/
def sampleNoReadyOps : List SessionOp :=
  [SessionOp.runOp ⟨false, "A poem about rain"⟩ "Summarize" "India" "en"
     ⟨.ok "A poem about rain", false, fun _ => .ok "fine output"⟩,
   SessionOp.runOp ⟨false, "Loan contract"⟩ "Summarize" "India" "en"
     ⟨.ok "Loan contract", true, fun _ => .ok "Error: model overloaded"⟩]

/-- C5 witness: after the sample no-`Ready` history, asking a question
stores the fixed no-summary message and makes no LLM call. -/
theorem ask_requires_ready_witness :
    (runOps initialSession sampleNoReadyOps).current_summary = ""
    ∧ askQuestion (runOps initialSession sampleNoReadyOps) "What is the interest rate?" "en"
        (fun _ => .ok "an answer") =
      ({ runOps initialSession sampleNoReadyOps with qa_answer := NO_SUMMARY_MESSAGE }, []) :=
  ask_requires_ready initialSession sampleNoReadyOps rfl
    (by
      intro op hop
      rcases List.mem_cons.mp hop with rfl | hop2
      · decide
      · rcases List.mem_cons.mp hop2 with rfl | hop3
        · decide
        · cases hop3)
    "What is the interest rate?" "en" (fun _ => .ok "an answer") (by decide)

/-- C6: on a non-empty document, the classifier returns true exactly when
the gateway response (stripped, upper-cased) contains "YES"; a response
without "YES" yields false whether or not it contains "NO"; and a
gateway exception yields false (fail-closed default). -/
theorem is_document_financial_parse (text : String)
    (gw : String → Except GException String) (h : pyStrip text ≠ "") :
    (∀ r, gw (get_financial_classification_prompt (text.take 5000)) = .ok r →
      (((is_document_financial text gw).1 = true) ↔
        strContains (pyUpper (pyStrip r)) "YES" = true))
    ∧ (∀ r, gw (get_financial_classification_prompt (text.take 5000)) = .ok r →
        strContains (pyUpper (pyStrip r)) "YES" = false →
        (is_document_financial text gw).1 = false)
    ∧ (∀ e, gw (get_financial_classification_prompt (text.take 5000)) = .error e →
        (is_document_financial text gw).1 = false) := by
  refine ⟨?_, ?_, ?_⟩
  · intro r hr
    simp only [is_document_financial, if_neg h, hr]
    by_cases hy : strContains (pyUpper (pyStrip r)) "YES" = true
    · simp [hy]
    · simp only [Bool.not_eq_true] at hy
      simp only [hy]
      split_ifs <;> simp_all
  · intro r hr hy
    simp only [is_document_financial, if_neg h, hr, hy]
    split_ifs <;> simp_all
  · intro e he
    simp [is_document_financial, if_neg h, he]

/-- C6 witness: a lower-case " yes " response classifies as financial; a
gateway exception classifies as non-financial. -/
theorem is_document_financial_parse_witness :
    (is_document_financial "loan paper" (fun _ => .ok " yes ")).1 = true
    ∧ (is_document_financial "loan paper" (fun _ => .error .otherException)).1 = false :=
  ⟨((is_document_financial_parse "loan paper" (fun _ => .ok " yes ")
        (by decide)).1 " yes " rfl).mpr (by decide),
   (is_document_financial_parse "loan paper" (fun _ => .error .otherException)
        (by decide)).2.2 .otherException rfl⟩

/-- C7: an empty or whitespace-only document is classified false
immediately, with zero gateway calls, whatever the gateway would do. -/
theorem is_document_financial_empty (text : String) (h : pyStrip text = "")
    (gw : String → Except GException String) :
    is_document_financial text gw = (false, 0) := by
  simp [is_document_financial, h]

/-- C7 witness: whitespace-only input makes no gateway call even against
a gateway that would answer "YES". -/
theorem is_document_financial_empty_witness :
    is_document_financial "  \t\n " (fun _ => .ok "YES") = (false, 0) :=
  is_document_financial_empty "  \t\n " (by decide) (fun _ => .ok "YES")

/-- C8 counterexample: a summarize prompt — not a classification
prompt — whose document text contains "NO" is passed through with no
language directive appended, refuting "all non-classification prompts
receive the appended directive". -/
theorem addLanguageDirective_all_prompts_cex :
    addLanguageDirective (get_summarize_prompt "Delivery NO later than May" "India" "en") "en" =
      get_summarize_prompt "Delivery NO later than May" "India" "en"
    ∧ strContains (addLanguageDirective
        (get_summarize_prompt "Delivery NO later than May" "India" "en") "en")
        "Please provide the output in" = false := by
  decide

/-- C8 (amended): the gateway appends the target-language directive
exactly when the prompt contains none of the markers
"Please provide the output in", "YES", "NO"; any prompt containing one
of them — in particular every classification prompt, whose template
contains "YES" — is passed through unmodified. -/
theorem addLanguageDirective_policy (prompt lang : String) :
    (strContains prompt "Please provide the output in" = false →
      strContains prompt "YES" = false → strContains prompt "NO" = false →
      addLanguageDirective prompt lang =
        prompt ++ ("\n\n**Please provide the output in " ++ (pyCapitalize lang ++ ".**")))
    ∧ (strContains prompt "YES" = true ∨ strContains prompt "NO" = true ∨
        strContains prompt "Please provide the output in" = true →
        addLanguageDirective prompt lang = prompt)
    ∧ (∀ text, addLanguageDirective (get_financial_classification_prompt text) lang =
        get_financial_classification_prompt text) := by
  refine ⟨?_, ?_, ?_⟩
  · intro h1 h2 h3
    simp [addLanguageDirective, h1, h2, h3]
  · intro h
    rcases h with h | h | h <;> simp [addLanguageDirective, h]
  · intro text
    have hyes : strContains (get_financial_classification_prompt text) "YES" = true := by
      simp only [get_financial_classification_prompt]
      apply strContains_append_left
      decide
    simp [addLanguageDirective, hyes]

/-- C8 witness: a marker-free prompt gets the directive appended; a
prompt containing "YES" is passed through. -/
theorem addLanguageDirective_policy_witness :
    addLanguageDirective "Summarize this document." "en" =
      "Summarize this document." ++
        ("\n\n**Please provide the output in " ++ (pyCapitalize "en" ++ ".**"))
    ∧ addLanguageDirective "Respond with YES." "en" = "Respond with YES." :=
  ⟨(addLanguageDirective_policy "Summarize this document." "en").1
      (by decide) (by decide) (by decide),
   (addLanguageDirective_policy "Respond with YES." "en").2.1 (Or.inl (by decide))⟩

/-- C9 counterexample: the simplify prompt contains no word-budget cap —
neither "maximum 250" nor even the number 250 occurs in it — refuting
the claim for the Simplify action. -/
theorem simplify_prompt_word_cap_cex :
    strContains (get_simplify_prompt "Loan agreement with 12% interest" "India" "en")
      ("maximum " ++ toString MAX_SUMMARY_WORDS) = false
    ∧ strContains (get_simplify_prompt "Loan agreement with 12% interest" "India" "en")
      (toString MAX_SUMMARY_WORDS) = false := by
  decide

/-- C9 (amended): every Summarize prompt — for every country, language
code, and document text — contains the instruction capping the output at
the configured word budget ("maximum 250"); Simplify prompts do not. -/
theorem summarize_prompt_word_cap (text country lang : String) :
    strContains (get_summarize_prompt text country lang)
      ("maximum " ++ toString MAX_SUMMARY_WORDS) = true := by
  have hc : strContains common_elements ("maximum " ++ toString MAX_SUMMARY_WORDS) = true := by
    decide
  have hcr : strContains (pyReplace common_elements "words" "Wörter")
      ("maximum " ++ toString MAX_SUMMARY_WORDS) = true := by decide
  simp only [get_summarize_prompt]
  split_ifs
  · exact strContains_append_right _ (strContains_append_left _ hc)
  · exact strContains_append_right _ (strContains_append_left _ hc)
  · exact strContains_append_right _ (strContains_append_left _ hcr)
  · exact strContains_append_right _ (strContains_append_left _ hc)
  · exact strContains_append_right _ (strContains_append_left _ hc)

/-- Fixed part preceding the document text in the Germany/German
summarize prompt. -/
def summarizeGermanyDeHeader : String :=
  "Fasse das folgende deutsche Finanzdokument prägnant und in klarem, leicht verständlichem Deutsch zusammen. Betone die wichtigsten Bedingungen und Konditionen (z.B. Vertragsdauer, Kündigungsfristen, Kosten). Vermeide übermäßig komplizierte juristische Fachsprache, aber bleibe präzise. " ++
    (pyReplace common_elements "words" "Wörter" ++ "\n            Dokument:\n            ")

/-- Fixed part preceding the document text in the Germany/English
summarize prompt. -/
def summarizeGermanyEnHeader : String :=
  "Summarize the following German financial document into clear, plain English. Break down complex German terms and sentences. Ensure accuracy while making it accessible to a non-native speaker without a legal background. " ++
    (common_elements ++ "\n            Document:\n            ")

/-- C10: the Germany/"de" summarize prompt is a fixed German-language
header followed by the document text `T` verbatim (it contains `T` and
the German instruction); switching the language code to "en" changes
only that fixed header while still ending with `T` verbatim. -/
theorem summarize_germany_language_roundtrip (T : String) :
    get_summarize_prompt T "Germany" "de" = summarizeGermanyDeHeader ++ T
    ∧ strContains (get_summarize_prompt T "Germany" "de") T = true
    ∧ strContains (get_summarize_prompt T "Germany" "de")
        "Fasse das folgende deutsche Finanzdokument" = true
    ∧ get_summarize_prompt T "Germany" "en" = summarizeGermanyEnHeader ++ T
    ∧ strContains (get_summarize_prompt T "Germany" "en") T = true
    ∧ summarizeGermanyDeHeader ≠ summarizeGermanyEnHeader := by
  have hde : get_summarize_prompt T "Germany" "de" =
      "Fasse das folgende deutsche Finanzdokument prägnant und in klarem, leicht verständlichem Deutsch zusammen. Betone die wichtigsten Bedingungen und Konditionen (z.B. Vertragsdauer, Kündigungsfristen, Kosten). Vermeide übermäßig komplizierte juristische Fachsprache, aber bleibe präzise. " ++
        (pyReplace common_elements "words" "Wörter" ++
          ("\n            Dokument:\n            " ++ T)) := rfl
  have hen : get_summarize_prompt T "Germany" "en" =
      "Summarize the following German financial document into clear, plain English. Break down complex German terms and sentences. Ensure accuracy while making it accessible to a non-native speaker without a legal background. " ++
        (common_elements ++ ("\n            Document:\n            " ++ T)) := rfl
  refine ⟨?_, ?_, ?_, ?_, ?_, by decide⟩
  · rw [hde, summarizeGermanyDeHeader, String.append_assoc, String.append_assoc]
  · rw [hde]
    exact strContains_append_right _ (strContains_append_right _
      (strContains_append_right _ (strContains_self T)))
  · rw [hde]
    apply strContains_append_left
    decide
  · rw [hen, summarizeGermanyEnHeader, String.append_assoc, String.append_assoc]
  · rw [hen]
    exact strContains_append_right _ (strContains_append_right _
      (strContains_append_right _ (strContains_self T)))

end FinaiMitra
